import Mathlib

/-!
Verification of the StaySphere pricing & ranking engine.

Shallow embedding of the heuristic pricing / personalized ranking core:
* `src/services/marketDataService.js` (static tables, `calculateRentPrice`,
  and the second module's `getMarketData` / `getGlobalMarketData` /
  `getPriceTrends`),
* `src/listProperties.js` (`parseNaturalLanguageQuery`,
  `calculatePersonalizedScore`, the randomized `getMarketData` helper),
* the AI search router (`calculateSmartScore`, `getRelativePricing`,
  the smart-recommendations ranking stage).

JavaScript numbers are modelled as exact rationals (`ℚ`); where the code can
produce `NaN`/`Infinity` (the smart-score arithmetic) we use the `JSNum` type
which carries those values explicitly.  Missing (`undefined`) fields are
`Option` values.  `Date` timestamps and logging are omitted: they carry no
logical content for the claims under study.
-/

namespace StaySphere

section Engine

/-- JS `Math.round`: round half up (toward +∞), as on all JS engines.
(`Rat.floor` is used so that concrete instances evaluate in the kernel.) -/
def jsRound (x : ℚ) : ℤ := (x + 1/2).floor

theorem jsRound_eq_floor (x : ℚ) : jsRound x = ⌊x + 1/2⌋ := by
  unfold jsRound
  rw [Rat.floor_def', Rat.floor_def]

/-- `parseFloat(x.toFixed(2))`: round to two decimal places.  All values this
is applied to in the source have at most one decimal digit, so this is the
identity there; we keep the rounding for faithfulness. -/
def toFixed2 (x : ℚ) : ℚ := (jsRound (x * 100) : ℚ) / 100

/-- ASCII case folding, the fragment of JS `toLowerCase` exercised by the
string keys appearing in the code and tables. -/
def jsCharToLower (c : Char) : Char :=
  if 'A' ≤ c ∧ c ≤ 'Z' then Char.ofNat (c.toNat + 32) else c

/-- JS `String.prototype.toLowerCase` on ASCII strings. -/
def jsToLower (s : String) : String := String.mk (s.data.map jsCharToLower)

/-! ### Static market data tables (`src/services/marketDataService.js`) -/

/-- `BASE_PRICES`: base price per square foot by property type (INR), as the
key/value pairs of the JS object literal; a property read is `List.lookup`
(`none` models an absent key). -/
def BASE_PRICES_TABLE : List (String × ℚ) :=
  [("apartment", 4000), ("house", 3500), ("villa", 5000), ("penthouse", 6000),
   ("studio", 4500), ("default", 4000)]

def BASE_PRICES (t : String) : Option ℚ := BASE_PRICES_TABLE.lookup t

/-- `LOCATION_MULTIPLIERS`: a single JS object holding both city and state
keys.  The source lists `'delhi'` twice with the same value `1.6`; in a JS
object literal the last duplicate wins, so the effective table has one
`delhi` entry. -/
def LOCATION_MULTIPLIERS_TABLE : List (String × ℚ) :=
  [("mumbai", 1.8), ("delhi", 1.6), ("bangalore", 1.7), ("hyderabad", 1.4),
   ("chennai", 1.3), ("kolkata", 1.2), ("pune", 1.3), ("ahmedabad", 1.1),
   ("vishakapatnam", 1.0), ("maharashtra", 1.3), ("karnataka", 1.2),
   ("telangana", 1.1), ("tamil nadu", 1.1), ("west bengal", 1.0),
   ("gujarat", 1.0), ("andhra pradesh", 0.9), ("default", 1.0)]

def LOCATION_MULTIPLIERS (k : String) : Option ℚ := LOCATION_MULTIPLIERS_TABLE.lookup k

/-- `AMENITY_VALUES`: monthly INR value per amenity tag. -/
def AMENITY_VALUES_TABLE : List (String × ℚ) :=
  [("parking", 1000), ("gym", 1500), ("pool", 2000), ("air conditioning", 2000),
   ("security", 1000), ("power backup", 1000), ("lift", 800), ("water supply", 500),
   ("maintenance", 1000), ("playground", 500), ("garden", 500), ("clubhouse", 1000),
   ("internet", 800), ("housekeeping", 1000)]

def AMENITY_VALUES (a : String) : Option ℚ := AMENITY_VALUES_TABLE.lookup a

/-- `BEDROOM_MULTIPLIERS`, keyed by the numeric bedroom count (JS coerces the
number to a string property key; only the integer keys 1–5 are present, so
keying by the number itself is equivalent). -/
def BEDROOM_MULTIPLIERS_TABLE : List (ℚ × ℚ) :=
  [(1, 1.0), (2, 1.3), (3, 1.6), (4, 1.9), (5, 2.2)]

def BEDROOM_MULTIPLIERS (b : ℚ) : Option ℚ := BEDROOM_MULTIPLIERS_TABLE.lookup b

/-- `BATHROOM_MULTIPLIERS`, same keying convention (integer keys 1–4). -/
def BATHROOM_MULTIPLIERS_TABLE : List (ℚ × ℚ) :=
  [(1, 1.0), (2, 1.2), (3, 1.4), (4, 1.6)]

def BATHROOM_MULTIPLIERS (b : ℚ) : Option ℚ := BATHROOM_MULTIPLIERS_TABLE.lookup b

/-! ### `calculateRentPrice` -/

/-- Input of `calculateRentPrice`.  The JS destructuring defaults are applied
in the function body; `none` models an absent (`undefined`) numeric field.
An absent `city`/`state`/`amenities` defaults to `''`/`[]` at destructuring
time, so plain `String`/`List String` (with those defaults supplied by the
caller) is an equivalent encoding. -/
structure RentInput where
  propertyType : String
  bedrooms : Option ℚ
  bathrooms : Option ℚ
  squareFootage : Option ℚ
  city : String
  state : String
  amenities : List String

structure PriceRange where
  priceMin : ℤ
  priceMax : ℤ
  currency : String
  period : String
  deriving DecidableEq

structure PriceEstimate where
  basePrice : ℤ
  amenitiesValue : ℤ
  totalPrice : ℤ
  priceRange : PriceRange
  locationMultiplier : ℚ
  bedroomMultiplier : ℚ
  bathroomMultiplier : ℚ
  deriving DecidableEq

/-- `calculateRentPrice` (src/services/marketDataService.js, lines 82–148).
`property.propertyType || 'apartment'`: the `||` fires on the falsy `''`
(and on an absent field, encoded as `''`).  `squareFootage || 1000` fires on
the falsy `0`.  Lookup misses (`|| default`) use the stated defaults; every
table value is truthy, so `||` is exactly `Option.getD` here.  The `console.log`
call and the re-throwing `catch` wrapper (unreachable for these total
operations) are omitted. -/
def calculateRentPrice (property : RentInput) : PriceEstimate :=
  let bedrooms := property.bedrooms.getD 1
  let bathrooms := property.bathrooms.getD 1
  let squareFootage := property.squareFootage.getD 0
  let propertyType :=
    jsToLower (if property.propertyType = "" then "apartment" else property.propertyType)
  let basePricePerSqFt := (BASE_PRICES propertyType).getD 4000
  let basePrice0 := basePricePerSqFt * (if squareFootage = 0 then 1000 else squareFootage)
  let cityMultiplier := (LOCATION_MULTIPLIERS (jsToLower property.city)).getD 1.0
  let stateMultiplier := (LOCATION_MULTIPLIERS (jsToLower property.state)).getD 1.0
  let locationMultiplier := max (max cityMultiplier stateMultiplier) 0.8
  let basePrice1 := basePrice0 * locationMultiplier
  let bedroomMultiplier := (BEDROOM_MULTIPLIERS bedrooms).getD 1.0
  let bathroomMultiplier := (BATHROOM_MULTIPLIERS bathrooms).getD 1.0
  let basePrice2 := basePrice1 * (bedroomMultiplier * bathroomMultiplier)
  let amenitiesValue :=
    (property.amenities.map (fun a => (AMENITY_VALUES (jsToLower a)).getD 0)).sum
  let totalPrice := basePrice2 + amenitiesValue
  let priceVariance := totalPrice * 0.15
  { basePrice := jsRound basePrice2
    amenitiesValue := jsRound amenitiesValue
    totalPrice := jsRound totalPrice
    priceRange :=
      { priceMin := jsRound (totalPrice - priceVariance)
        priceMax := jsRound (totalPrice + priceVariance)
        currency := "INR"
        period := "month" }
    locationMultiplier := toFixed2 locationMultiplier
    bedroomMultiplier := toFixed2 bedroomMultiplier
    bathroomMultiplier := toFixed2 bathroomMultiplier }

/-! ### JS number values with `NaN` and infinities

The smart-score arithmetic can produce `NaN` (e.g. `undefined` drawn into
arithmetic) and signed infinities (division by zero), and `Math.min`/`Math.max`
propagate `NaN`, so the clamp does not tame it.  `JSNum` models exactly this:
finite values are exact rationals. -/

inductive JSNum where
  | nan : JSNum
  | inf : Bool → JSNum
  | num : ℚ → JSNum
  deriving DecidableEq

namespace JSNum

/-- A possibly-`undefined` number entering JS arithmetic: `undefined` becomes
`NaN`. -/
def ofOpt : Option ℚ → JSNum
  | none => nan
  | some q => num q

def neg : JSNum → JSNum
  | nan => nan
  | inf s => inf (!s)
  | num a => num (-a)

/-- JS `+` (numeric).  `inf true` is `+∞`. -/
def add : JSNum → JSNum → JSNum
  | nan, _ => nan
  | _, nan => nan
  | inf s, inf t => if s = t then inf s else nan
  | inf s, num _ => inf s
  | num _, inf t => inf t
  | num a, num b => num (a + b)

def sub (x y : JSNum) : JSNum := add x (neg y)

def mul : JSNum → JSNum → JSNum
  | nan, _ => nan
  | _, nan => nan
  | inf s, inf t => inf (s == t)
  | inf s, num b => if b = 0 then nan else inf (s == decide (0 < b))
  | num a, inf t => if a = 0 then nan else inf (t == decide (0 < a))
  | num a, num b => num (a * b)

/-- JS `/`: `x/0` is a signed infinity (`0/0` is `NaN`), `x/±∞` is `0`. -/
def div : JSNum → JSNum → JSNum
  | nan, _ => nan
  | _, nan => nan
  | num a, num b =>
      if b = 0 then (if a = 0 then nan else inf (decide (0 < a))) else num (a / b)
  | num _, inf _ => num 0
  | inf s, num b => inf (s == decide (0 ≤ b))
  | inf _, inf _ => nan

/-- JS `Math.abs`. -/
def abs : JSNum → JSNum
  | nan => nan
  | inf _ => inf true
  | num a => num |a|

/-- JS `Math.min` (propagates `NaN`). -/
def jmin : JSNum → JSNum → JSNum
  | nan, _ => nan
  | _, nan => nan
  | inf true, y => y
  | inf false, _ => inf false
  | num _, inf false => inf false
  | num a, inf true => num a
  | num a, num b => num (min a b)

/-- JS `Math.max` (propagates `NaN`). -/
def jmax : JSNum → JSNum → JSNum
  | nan, _ => nan
  | _, nan => nan
  | inf true, _ => inf true
  | inf false, y => y
  | num _, inf true => inf true
  | num a, inf false => num a
  | num a, num b => num (max a b)

/-- JS `<` (false whenever an operand is `NaN`). -/
def lt : JSNum → JSNum → Bool
  | nan, _ => false
  | _, nan => false
  | inf false, inf false => false
  | inf false, _ => true
  | inf true, _ => false
  | num _, inf true => true
  | num _, inf false => false
  | num a, num b => decide (a < b)

/-- JS truthiness of a number: `0` and `NaN` are falsy. -/
def truthy : JSNum → Bool
  | nan => false
  | inf _ => true
  | num a => !(a == 0)

end JSNum

/-! ### Smart scoring (AI search router, `calculateSmartScore` and
`getRelativePricing`) -/

/-- The slice of the market data record consumed by the scoring code:
`marketData.avgRent` is a JS object keyed by `"studio"`, `"1bed"`, …; `none`
models an absent key. -/
structure MarketAvg where
  avgRent : String → Option ℚ

/-- `preferences.budget` / `userPrefs.budget`: both bounds may be absent. -/
structure BudgetPref where
  min : Option ℚ
  max : Option ℚ
  deriving DecidableEq

/-- The preference fields read by `calculateSmartScore`.  An absent
`preferences.amenities` and an empty array both fail the
`preferences.amenities && preferences.amenities.length > 0` guard, so a plain
list (`[]` for absent) is an equivalent encoding. -/
structure SmartPreferences where
  budget : Option BudgetPref
  amenities : List String

/-- The property fields read by `calculateSmartScore`.  `views` has schema
default `0` (models/Property.js line 208), so it is always a number on a
Mongoose document; `yearBuilt` and `squareFootage` are optional. -/
structure SmartProperty where
  rent : Option ℚ
  bedrooms : ℕ
  squareFootage : Option ℚ
  yearBuilt : Option ℚ
  amenities : List String
  views : ℚ

/-- JS `o > c` where `o` may be `undefined` (comparison with `undefined` is
false). -/
def optGtQ (o : Option ℚ) (c : ℚ) : Bool :=
  match o with
  | some q => decide (c < q)
  | none => false

/-- `getRelativePricing(rent, marketData, bedrooms)` from the AI search
router.  `marketData.avgRent[bedroomKey] || marketData.avgRent['1bed']`:
the `||` falls through on a missing key (`undefined`, i.e. `NaN` once in
arithmetic) and on a zero entry. -/
def getRelativePricing (rent : JSNum) (marketData : MarketAvg) (bedrooms : ℕ) : String :=
  let bedroomKey := if bedrooms = 0 then "studio" else toString bedrooms ++ "bed"
  let first := JSNum.ofOpt (marketData.avgRent bedroomKey)
  let marketAvg := if first.truthy then first else JSNum.ofOpt (marketData.avgRent "1bed")
  let ratio := rent.div marketAvg
  if ratio.lt (JSNum.num 0.9) then "good-value"
  else if ratio.lt (JSNum.num 1.1) then "market-rate"
  else "premium"

/-- `calculateSmartScore(property, preferences, marketData, userPreferences)`
from the AI search router (the `userPreferences` argument is never read by the
body, and is dropped here). -/
def calculateSmartScore (property : SmartProperty) (preferences : SmartPreferences)
    (marketData : MarketAvg) : JSNum :=
  let score : JSNum := .num 50
  let score :=
    match preferences.budget with
    | none => score
    | some b =>
      let budgetMid := ((JSNum.ofOpt b.min).add (JSNum.ofOpt b.max)).div (.num 2)
      let priceDiff := (((JSNum.ofOpt property.rent).sub budgetMid).abs).div budgetMid
      score.add (((JSNum.num 1).sub priceDiff).mul (.num 30))
  let score :=
    if 0 < preferences.amenities.length then
      let matchedAmenities := property.amenities.filter (fun a => preferences.amenities.contains a)
      let amenityScore := ((matchedAmenities.length : ℚ) / (preferences.amenities.length : ℚ)) * 25
      score.add (.num amenityScore)
    else score
  let marketPosition := getRelativePricing (JSNum.ofOpt property.rent) marketData property.bedrooms
  let score :=
    if marketPosition = "good-value" then score.add (.num 20)
    else if marketPosition = "market-rate" then score.add (.num 15)
    else if marketPosition = "premium" then score.add (.num 10)
    else score
  let score := if optGtQ property.yearBuilt 2010 then score.add (.num 5) else score
  let score := if 5 < property.amenities.length then score.add (.num 5) else score
  let score := if optGtQ property.squareFootage 1000 then score.add (.num 5) else score
  let score := score.add (JSNum.jmin (.num 10) (.num (property.views / 50)))
  JSNum.jmin (.num 100) (JSNum.jmax (.num 0) score)

/-! ### Natural-language query parser (`src/listProperties.js`, lines 621–645)

The three regexes `/under \$?(\d+)/`, `/(\d+)\s*bed/` and
`/in ([a-zA-Z\s]+)/` are embedded as leftmost-match scanners over the
lowercased character list.  Greedy quantifiers need no backtracking here: in
each pattern the atom after a quantified class cannot begin with a character
of that class, so the maximal run is the only candidate. -/

def isDigitChar (c : Char) : Bool := '0' ≤ c && c ≤ '9'

/-- ASCII members of the JS `\s` class (the Unicode space code points play no
role in the analysed behaviour). -/
def isJsSpace (c : Char) : Bool :=
  c = ' ' || c = '\t' || c = '\n' || c = '\r' || c = '\x0b' || c = '\x0c'

def isAsciiLetter (c : Char) : Bool :=
  ('a' ≤ c && c ≤ 'z') || ('A' ≤ c && c ≤ 'Z')

/-- Value of a digit run, as `parseInt` reads it. -/
def digitsVal (ds : List Char) : ℕ :=
  ds.foldl (fun n c => 10 * n + (c.toNat - '0'.toNat)) 0

/-- Match a literal character sequence at the head, returning the rest. -/
def stripLit : List Char → List Char → Option (List Char)
  | [], cs => some cs
  | l :: ls, c :: cs => if c = l then stripLit ls cs else none
  | _ :: _, [] => none

/-- Try `/under \$?(\d+)/` anchored at the head. -/
def matchUnderAt (cs : List Char) : Option ℕ :=
  (stripLit "under ".data cs).bind fun rest =>
    let rest' := match rest with
      | '$' :: r => r
      | _ => rest
    let ds := rest'.takeWhile isDigitChar
    if ds.isEmpty then none else some (digitsVal ds)

def findUnder : List Char → Option ℕ
  | [] => none
  | c :: cs =>
    match matchUnderAt (c :: cs) with
    | some n => some n
    | none => findUnder cs

/-- Try `/(\d+)\s*bed/` anchored at the head. -/
def matchBedAt (cs : List Char) : Option ℕ :=
  let ds := cs.takeWhile isDigitChar
  if ds.isEmpty then none
  else
    let rest := (cs.drop ds.length).dropWhile isJsSpace
    if "bed".data.isPrefixOf rest then some (digitsVal ds) else none

def findBed : List Char → Option ℕ
  | [] => none
  | c :: cs =>
    match matchBedAt (c :: cs) with
    | some n => some n
    | none => findBed cs

/-- Try `/in ([a-zA-Z\s]+)/` anchored at the head; the capture is the maximal
run of letters and whitespace. -/
def matchInAt (cs : List Char) : Option (List Char) :=
  (stripLit "in ".data cs).bind fun rest =>
    let cap := rest.takeWhile (fun c => isAsciiLetter c || isJsSpace c)
    if cap.isEmpty then none else some cap

def findIn : List Char → Option (List Char)
  | [] => none
  | c :: cs =>
    match matchInAt (c :: cs) with
    | some cap => some cap
    | none => findIn cs

/-- JS `String.prototype.trim` (ASCII whitespace). -/
def jsTrim (l : List Char) : List Char :=
  ((l.dropWhile isJsSpace).reverse.dropWhile isJsSpace).reverse

structure SearchFilters where
  maxRent : Option ℕ
  bedrooms : Option ℕ
  city : Option String
  deriving DecidableEq

/-- `parseNaturalLanguageQuery(query)` (src/listProperties.js, lines
621–645): fields that fail to match are simply absent from the returned
filter object. -/
def parseNaturalLanguageQuery (query : String) : SearchFilters :=
  let lowerQuery := query.data.map jsCharToLower
  { maxRent := findUnder lowerQuery
    bedrooms := findBed lowerQuery
    city := (findIn lowerQuery).map (fun cap => String.mk (jsTrim cap)) }

/-! ### `calculatePersonalizedScore` (src/listProperties.js, lines 665–691) -/

/-- `userPrefs.bedrooms`. -/
structure BedroomsPref where
  min : Option ℚ
  deriving DecidableEq

/-- The preference fields read by `calculatePersonalizedScore`.  Here
presence matters (`userPrefs.amenities && property.amenities` tests
truthiness of the arrays themselves), so arrays stay `Option`. -/
structure UserPrefs where
  budget : Option BudgetPref
  bedrooms : Option BedroomsPref
  amenities : Option (List String)

/-- The property fields read by `calculatePersonalizedScore`
(`property.pricing.rent`, `property.specifications.bedrooms`,
`property.amenities`). -/
structure PersonalProperty where
  rent : Option ℚ
  bedrooms : Option ℚ
  amenities : Option (List String)

/-- JS `o <= c` where `o` may be `undefined` (false in that case). -/
def optLeQ (o : Option ℚ) (c : ℚ) : Bool :=
  match o with
  | some q => decide (q ≤ c)
  | none => false

/-- JS `o >= c` where `o` may be `undefined` (false in that case). -/
def optGeQ (o : Option ℚ) (c : ℚ) : Bool :=
  match o with
  | some q => decide (c ≤ q)
  | none => false

/-- `calculatePersonalizedScore(property, userPrefs)`.  The guards
`userPrefs.budget && userPrefs.budget.max` and
`userPrefs.bedrooms && userPrefs.bedrooms.min` test truthiness, so a present
but zero bound also skips the term. -/
def calculatePersonalizedScore (property : PersonalProperty) (userPrefs : UserPrefs) : ℚ :=
  let score : ℚ := 0
  let score :=
    match userPrefs.budget with
    | none => score
    | some b =>
      match b.max with
      | none => score
      | some m =>
        if m = 0 then score
        else if optLeQ property.rent m then score + 30 else score
  let score :=
    match userPrefs.bedrooms with
    | none => score
    | some br =>
      match br.min with
      | none => score
      | some mn =>
        if mn = 0 then score
        else if optGeQ property.bedrooms mn then score + 25 else score
  let score :=
    match userPrefs.amenities, property.amenities with
    | some ua, some pa =>
      score + ((ua.filter (fun a => pa.contains a)).length : ℚ) * 5
    | _, _ => score
  min score 100

/-! ### The aggregate market data module (`services/marketData.js`, second
module of src/services/marketDataService.js)

The database query result is passed in as a list (the store is an external
read dependency); `Date` fields and the `propertyTypeDistribution` counting
map are omitted as irrelevant to the claims.  An absent `isEstimate` key
reads back as `undefined` (falsy), modelled as `false`. -/

namespace marketData

structure LocationQuery where
  city : Option String
  state : Option String

/-- The slice of a stored listing read here: `prop.pricing?.rent`. -/
structure StoredListing where
  rent : Option ℚ

structure MarketDataResult where
  locationCity : String
  locationState : Option String
  averageRent : ℤ
  totalListings : ℕ
  isEstimate : Bool
  deriving DecidableEq

/-- `getGlobalMarketData()` — the synthetic fallback, flagged
`isEstimate: true`. -/
def getGlobalMarketData : MarketDataResult :=
  { locationCity := "Global"
    locationState := some "All"
    averageRent := 1500
    totalListings := 100
    isEstimate := true }

/-- `getMarketData(location)` (lines 187–229).  The guard
`!location || !location.city` is truthiness: an absent location, an absent
city, or an empty-string city all fall back.  The `catch` branch (database
errors) also returns the fallback and has no counterpart in this total
model.  `prop.pricing?.rent || 0` defaults a missing or zero rent to `0`. -/
def getMarketData (location : Option LocationQuery) (properties : List StoredListing) :
    MarketDataResult :=
  match location with
  | none => getGlobalMarketData
  | some loc =>
    match loc.city with
    | none => getGlobalMarketData
    | some c =>
      if c = "" then getGlobalMarketData
      else if properties.length = 0 then getGlobalMarketData
      else
        let totalRent := (properties.map (fun p => if p.rent.getD 0 = 0 then 0 else p.rent.getD 0)).sum
        let avgRent := totalRent / (properties.length : ℚ)
        { locationCity := c
          locationState := loc.state
          averageRent := jsRound avgRent
          totalListings := properties.length
          isEstimate := false }

structure TrendPoint where
  averageRent : ℤ
  isEstimate : Bool
  deriving DecidableEq

/-- `getPriceTrends(location, months)` (lines 257–277): an entirely mock
series ("For now, return mock data").  `Math.random()` is injected as the
call sequence `rand`; iteration `k` of the loop has `i = months - 1 - k`.
The location argument is never read; the date field is omitted.  No
`isEstimate` key is ever set. -/
def getPriceTrends (months : ℕ) (rand : ℕ → ℚ) : List TrendPoint :=
  (List.range months).map fun k =>
    let i := months - 1 - k
    let basePrice := 1200 + (rand k * 600 - 300)
    { averageRent := jsRound (basePrice + (i : ℚ) * 20), isEstimate := false }

end marketData

/-! ### The per-property market data helper (src/listProperties.js, lines
326–338): randomized placeholder values, returned without any `isEstimate`
key. -/

namespace listProperties

structure AiMarketData where
  averageRent : Option ℤ
  averagePricePerSqFt : Option ℚ
  marketHealth : Option String
  isEstimate : Bool
  deriving DecidableEq

/-- `getMarketData(property)` helper: `property.pricing?.rent ? … : null`
and `property.specifications?.squareFootage ? … : null` are truthiness
tests (zero behaves like absent); the three `Math.random()` draws are
injected.  `['growing','stable','declining'][Math.floor(r*3)]` is `undefined`
(`none`) for an out-of-range index. -/
def getMarketData (rent squareFootage : Option ℚ) (r1 r2 r3 : ℚ) : AiMarketData :=
  { averageRent :=
      match rent with
      | none => none
      | some rv => if rv = 0 then none else some (jsRound (rv * (0.9 + r1 * 0.2)))
    averagePricePerSqFt :=
      match squareFootage with
      | none => none
      | some s => if s = 0 then none else some ((rent.getD 0) / s * (0.8 + r2 * 0.4))
    marketHealth :=
      let idx := (r3 * 3).floor
      if idx = 0 then some "growing"
      else if idx = 1 then some "stable"
      else if idx = 2 then some "declining"
      else none
    isEstimate := false }

end listProperties

/-! ### Smart-recommendations ranking (AI search router, lines 510–536)

Candidates arrive from the store sorted `createdAt` descending
(`.sort({ createdAt: -1 })`), are scored, sorted by
`(a, b) => b.smartScore - a.smartScore` — `Array.prototype.sort` is
guaranteed stable — and cut to 20 (`slice(0, 20)`).  The stable descending
sort by score is embedded as `List.insertionSort` with the non-strict
"stays-before" relation, which is the unique stable realisation of that
comparator. -/

structure RankedListing where
  smartScore : ℚ
  createdAt : ℤ
  deriving DecidableEq

/-- `a` may stay before `b` under the score comparator. -/
def scoreOrder (a b : RankedListing) : Prop := b.smartScore ≤ a.smartScore

instance : DecidableRel scoreOrder := fun a b =>
  inferInstanceAs (Decidable (b.smartScore ≤ a.smartScore))

/-- `properties.sort((a, b) => b.smartScore - a.smartScore)`, stable. -/
def sortBySmartScore (l : List RankedListing) : List RankedListing :=
  l.insertionSort scoreOrder

/-- The final ranked list: stable score sort, then `slice(0, 20)`. -/
def smartRecommendationsRanking (l : List RankedListing) : List RankedListing :=
  (sortBySmartScore l).take 20

/-- The order the claim asserts for the output: strictly better score first,
ties by creation time descending. -/
def rankedBefore (a b : RankedListing) : Prop :=
  b.smartScore < a.smartScore ∨ (a.smartScore = b.smartScore ∧ b.createdAt ≤ a.createdAt)

/-! ### Helper lemmas -/

theorem jsRound_le_jsRound {a b : ℚ} (h : a ≤ b) : jsRound a ≤ jsRound b := by
  rw [jsRound_eq_floor, jsRound_eq_floor]
  exact Int.floor_le_floor (by linarith)

theorem jsRound_nonneg {a : ℚ} (h : 0 ≤ a) : 0 ≤ jsRound a := by
  rw [jsRound_eq_floor]
  exact Int.le_floor.mpr (by push_cast; linarith)

theorem jsRound_pos {a : ℚ} (h : 1 ≤ a) : 0 < jsRound a := by
  rw [jsRound_eq_floor]
  have h1 : (1 : ℤ) ≤ ⌊a + 1/2⌋ := Int.le_floor.mpr (by push_cast; linarith)
  omega

theorem mem_of_lookup_eq_some {α β : Type} [BEq α] [LawfulBEq α] {k : α} {v : β} :
    ∀ {l : List (α × β)}, l.lookup k = some v → (k, v) ∈ l := by
  intro l h
  induction l with
  | nil => simp [List.lookup] at h
  | cons p t ih =>
    obtain ⟨a, b⟩ := p
    rw [List.lookup] at h
    rcases hk : k == a with _ | _
    · rw [hk] at h
      exact List.mem_cons_of_mem _ (ih h)
    · rw [hk] at h
      obtain rfl : b = v := by injection h
      obtain rfl : k = a := eq_of_beq hk
      exact List.mem_cons_self _ _

/-- Bound every possible result of a table read defaulted with `|| d`. -/
theorem lookup_getD_bound {α : Type} [BEq α] [LawfulBEq α] {P : ℚ → Prop}
    {l : List (α × ℚ)} {d : ℚ} (hd : P d) (hl : ∀ p ∈ l, P p.2) (k : α) :
    P ((l.lookup k).getD d) := by
  cases h : l.lookup k with
  | none => simpa using hd
  | some v => simpa using hl _ (mem_of_lookup_eq_some h)

theorem basePrice_lookup_pos (s : String) : 0 < (BASE_PRICES s).getD 4000 := by
  refine lookup_getD_bound (by norm_num) ?_ s
  intro p hp
  fin_cases hp <;> norm_num

theorem loc_lookup_ge (s : String) : (9 : ℚ)/10 ≤ (LOCATION_MULTIPLIERS s).getD 1.0 := by
  refine lookup_getD_bound (by norm_num) ?_ s
  intro p hp
  fin_cases hp <;> norm_num

theorem loc_lookup_lt_one {s : String} (h : (LOCATION_MULTIPLIERS s).getD 1.0 < 1) :
    s = "andhra pradesh" ∧ (LOCATION_MULTIPLIERS s).getD 1.0 = 9/10 := by
  unfold LOCATION_MULTIPLIERS at h ⊢
  cases hin : LOCATION_MULTIPLIERS_TABLE.lookup s with
  | none =>
    rw [hin] at h
    norm_num [Option.getD] at h
  | some v =>
    rw [hin] at h
    simp only [Option.getD_some] at h ⊢
    have hmem := mem_of_lookup_eq_some hin
    fin_cases hmem <;> first
      | (refine ⟨rfl, ?_⟩; norm_num)
      | (exfalso; norm_num at h)

theorem bedroom_mult_ge_one (b : ℚ) : 1 ≤ (BEDROOM_MULTIPLIERS b).getD 1.0 := by
  refine lookup_getD_bound (by norm_num) ?_ b
  intro p hp
  fin_cases hp <;> norm_num

theorem bathroom_mult_ge_one (b : ℚ) : 1 ≤ (BATHROOM_MULTIPLIERS b).getD 1.0 := by
  refine lookup_getD_bound (by norm_num) ?_ b
  intro p hp
  fin_cases hp <;> norm_num

theorem amenity_lookup_nonneg (a : String) : 0 ≤ (AMENITY_VALUES a).getD 0 := by
  refine lookup_getD_bound (by norm_num) ?_ a
  intro p hp
  fin_cases hp <;> norm_num

theorem amenity_sum_nonneg (l : List String) :
    0 ≤ (l.map fun a => (AMENITY_VALUES (jsToLower a)).getD 0).sum := by
  refine List.sum_nonneg ?_
  intro x hx
  rcases List.mem_map.mp hx with ⟨a, _, rfl⟩
  exact amenity_lookup_nonneg _

theorem toFixed2_mono {a b : ℚ} (h : a ≤ b) : toFixed2 a ≤ toFixed2 b := by
  unfold toFixed2
  have := jsRound_le_jsRound (mul_le_mul_of_nonneg_right h (by norm_num : (0:ℚ) ≤ 100))
  have hc : ((jsRound (a * 100) : ℤ) : ℚ) ≤ ((jsRound (b * 100) : ℤ) : ℚ) := by
    exact_mod_cast this
  linarith

theorem le_one_of_toFixed2_lt_one {a : ℚ} (h : toFixed2 a < 1) : a < 1 := by
  by_contra hc
  push_neg at hc
  have h1 : toFixed2 1 ≤ toFixed2 a := toFixed2_mono hc
  have h2 : toFixed2 1 = 1 := by
    rw [toFixed2, jsRound_eq_floor]
    norm_num
  linarith

/-! ### Concrete evaluations -/

section ConcreteEvaluations

/- Batteries marks the `Rat` field operations `@[irreducible]`, which blocks
`decide` on concrete rational computations; restore default reducibility
locally so concrete evaluations reduce. -/
attribute [local semireducible] Rat.ofScientific Rat.mul Rat.inv Rat.add Rat.sub

/-- C2, counterexample: parsing "2 bedroom apartment in Austin under $2000"
does not yield city "Austin": the capture group `[a-zA-Z\s]+` runs past the
keyword `under` and only stops at `$`, and the query was lowercased first,
so the city filter is "austin under". -/
theorem parseNaturalLanguageQuery_city_not_Austin :
    (parseNaturalLanguageQuery "2 bedroom apartment in Austin under $2000").city
        = some "austin under"
    ∧ (parseNaturalLanguageQuery "2 bedroom apartment in Austin under $2000").city
        ≠ some "Austin" :=
  ⟨by decide, by decide⟩

/-- C2, amended: the example query parses to
`{maxRent: 2000, bedrooms: 2, city: "austin under"}` — the city capture does
not stop at the next filter keyword — and the patternless query
"apartment with a pool" parses to the empty filter object. -/
theorem parseNaturalLanguageQuery_examples :
    parseNaturalLanguageQuery "2 bedroom apartment in Austin under $2000" =
      { maxRent := some 2000, bedrooms := some 2, city := some "austin under" }
    ∧ parseNaturalLanguageQuery "apartment with a pool" =
      { maxRent := none, bedrooms := none, city := none } :=
  ⟨by decide, by decide⟩

/-- C3: `calculateRentPrice` performs no numeric validation and no
`InvalidPropertyDataError` exists anywhere in the code: a negative
`squareFootage` of −500 flows straight into the arithmetic and the function
returns the nonsensical estimate −2,000,000 INR (4000 × (−500)) instead of
failing. -/
theorem calculateRentPrice_negative_area_silent :
    (calculateRentPrice { propertyType := "apartment", bedrooms := some 1, bathrooms := some 1
                          squareFootage := some (-500), city := "", state := ""
                          amenities := [] }).totalPrice = -2000000 := by decide

/-- C6: the pricing example — apartment, 2 bed, 1 bath, 900 sqft, mumbai,
parking+gym — computes basePrice 4000 × 900 × 1.8 × 1.3 × 1.0 = 8,424,000,
amenities 1000 + 1500 = 2500, total 8,426,500, and the ±15% range. -/
theorem calculateRentPrice_mumbai_example :
    calculateRentPrice { propertyType := "apartment", bedrooms := some 2, bathrooms := some 1
                         squareFootage := some 900, city := "mumbai", state := ""
                         amenities := ["parking", "gym"] } =
      { basePrice := 8424000, amenitiesValue := 2500, totalPrice := 8426500
        priceRange := { priceMin := 7162525, priceMax := 9690475
                        currency := "INR", period := "month" }
        locationMultiplier := 1.8, bedroomMultiplier := 1.3, bathroomMultiplier := 1 }
    ∧ (8424000 : ℚ) = 4000 * 900 * (1.8 * 1.3 * 1.0)
    ∧ (2500 : ℚ) = 1000 + 1500
    ∧ (7162525 : ℚ) = 8426500 - 8426500 * 0.15
    ∧ (9690475 : ℚ) = 8426500 + 8426500 * 0.15 :=
  ⟨by decide, by decide, by decide, by decide, by decide⟩

/-- C1, counterexample: a budget preference missing its `min` bound drives
`(preferences.budget.min + preferences.budget.max) / 2` to `NaN`
(`undefined` in arithmetic), and `Math.min(100, Math.max(0, NaN))` is `NaN`:
the returned match score is not in [0,100]. -/
theorem calculateSmartScore_nan_on_partial_budget :
    calculateSmartScore
      { rent := some 1500, bedrooms := 1, squareFootage := none, yearBuilt := none
        amenities := [], views := 0 }
      { budget := some { min := none, max := some 2000 }, amenities := [] }
      ⟨fun k => if k = "1bed" then some 1000 else none⟩ = JSNum.nan := by decide

/-- C4, counterexample: in `calculateSmartScore` the budget term is graded,
not binary.  Two listings identical except for rent (1500 vs 1800, both ≤
the budget max 2000) score 90 and 84: the credit decreases with distance
from the budget midpoint, so rent ≤ max does not get a fixed full credit. -/
theorem calculateSmartScore_budget_graded :
    calculateSmartScore
      { rent := some 1500, bedrooms := 1, squareFootage := none, yearBuilt := none
        amenities := [], views := 0 }
      { budget := some { min := some 1000, max := some 2000 }, amenities := [] }
      ⟨fun k => if k = "1bed" then some 1000 else none⟩ = JSNum.num 90
    ∧ calculateSmartScore
      { rent := some 1800, bedrooms := 1, squareFootage := none, yearBuilt := none
        amenities := [], views := 0 }
      { budget := some { min := some 1000, max := some 2000 }, amenities := [] }
      ⟨fun k => if k = "1bed" then some 1000 else none⟩ = JSNum.num 84
    ∧ (1500 : ℚ) ≤ 2000 ∧ (1800 : ℚ) ≤ 2000 :=
  ⟨by decide, by decide, by decide, by decide⟩

/-- C9, counterexample: `getPriceTrends` returns an entirely synthetic mock
series (randomized around 1200 with a fabricated upward trend) and no entry
carries an `isEstimate` flag — callers cannot distinguish it from real
data. -/
theorem getPriceTrends_unflagged_mock :
    marketData.getPriceTrends 2 (fun _ => 1/2) =
      [{ averageRent := 1220, isEstimate := false },
       { averageRent := 1200, isEstimate := false }] := by decide

/-- C10, counterexample: city and state lookups share one table, so the
sub-1.0 state entry `'andhra pradesh': 0.9` is reachable through the city
lookup too; with city = state = "andhra pradesh" the returned
locationMultiplier is 0.9 < 1. -/
theorem locationMultiplier_below_one :
    (calculateRentPrice { propertyType := "apartment", bedrooms := some 1, bathrooms := some 1
                          squareFootage := some 1000, city := "andhra pradesh"
                          state := "andhra pradesh"
                          amenities := [] }).locationMultiplier = 9/10
    ∧ ¬ (1 ≤ (calculateRentPrice { propertyType := "apartment", bedrooms := some 1
                                   bathrooms := some 1, squareFootage := some 1000
                                   city := "andhra pradesh", state := "andhra pradesh"
                                   amenities := [] }).locationMultiplier) :=
  ⟨by decide, by decide⟩

end ConcreteEvaluations

theorem jsRound_brackets {T : ℚ} (hT : 0 ≤ T) :
    jsRound (T - T * 0.15) ≤ jsRound T ∧ jsRound T ≤ jsRound (T + T * 0.15)
    ∧ 0 ≤ jsRound (T - T * 0.15) := by
  have h15 : 0 ≤ T * 0.15 := mul_nonneg hT (by norm_num)
  exact ⟨jsRound_le_jsRound (by linarith), jsRound_le_jsRound (by linarith),
    jsRound_nonneg (by linarith)⟩

/-- C5: for any input whose square footage is well formed (non-negative),
the raw total `T` (base price after multipliers plus amenity value) is
non-negative, the returned `totalPrice` is `round(T)`, the returned range is
`round(T ∓ 15%)`, the range brackets the total, and both bounds are
non-negative. -/
theorem calculateRentPrice_priceRange_brackets (p : RentInput)
    (hsq : 0 ≤ p.squareFootage.getD 0) :
    ∃ T : ℚ, 0 ≤ T
      ∧ (calculateRentPrice p).totalPrice = jsRound T
      ∧ (calculateRentPrice p).priceRange.priceMin = jsRound (T - T * 0.15)
      ∧ (calculateRentPrice p).priceRange.priceMax = jsRound (T + T * 0.15)
      ∧ jsRound (T - T * 0.15) ≤ jsRound T
      ∧ jsRound T ≤ jsRound (T + T * 0.15)
      ∧ 0 ≤ jsRound (T - T * 0.15) := by
  have hT : (0:ℚ) ≤
      (BASE_PRICES (jsToLower (if p.propertyType = "" then "apartment" else p.propertyType))).getD 4000
        * (if p.squareFootage.getD 0 = 0 then 1000 else p.squareFootage.getD 0)
        * max (max ((LOCATION_MULTIPLIERS (jsToLower p.city)).getD 1.0)
            ((LOCATION_MULTIPLIERS (jsToLower p.state)).getD 1.0)) 0.8
        * ((BEDROOM_MULTIPLIERS (p.bedrooms.getD 1)).getD 1.0
            * (BATHROOM_MULTIPLIERS (p.bathrooms.getD 1)).getD 1.0)
      + (p.amenities.map (fun a => (AMENITY_VALUES (jsToLower a)).getD 0)).sum := by
    refine add_nonneg (mul_nonneg (mul_nonneg (mul_nonneg ?_ ?_) ?_) ?_) (amenity_sum_nonneg _)
    · exact (basePrice_lookup_pos _).le
    · split_ifs with h
      · norm_num
      · exact hsq
    · exact le_trans (by norm_num) (le_max_right _ _)
    · exact mul_nonneg (le_trans zero_le_one (bedroom_mult_ge_one _))
        (le_trans zero_le_one (bathroom_mult_ge_one _))
  obtain ⟨h1, h2, h3⟩ := jsRound_brackets hT
  exact ⟨_, hT, rfl, rfl, rfl, h1, h2, h3⟩

/-- C7: with every categorical lookup missing (unknown property type, city,
state, and amenity tags) and an integral square footage, `calculateRentPrice`
degrades to its defaults — location multiplier 1.0 (the 0.8 floor does not
bind), zero amenity value — and still returns a strictly positive total.
The embedding is a total function: no input can make it throw. -/
theorem calculateRentPrice_unknown_inputs_safe (p : RentInput)
    (hpt : BASE_PRICES (jsToLower (if p.propertyType = "" then "apartment" else p.propertyType)) = none)
    (hcity : LOCATION_MULTIPLIERS (jsToLower p.city) = none)
    (hstate : LOCATION_MULTIPLIERS (jsToLower p.state) = none)
    (hamen : ∀ a ∈ p.amenities, AMENITY_VALUES (jsToLower a) = none)
    (hsq : ∃ n : ℕ, p.squareFootage.getD 0 = (n : ℚ)) :
    (calculateRentPrice p).locationMultiplier = 1
    ∧ (calculateRentPrice p).amenitiesValue = 0
    ∧ 0 < (calculateRentPrice p).totalPrice := by
  obtain ⟨n, hn⟩ := hsq
  have hsum : (p.amenities.map (fun a => (AMENITY_VALUES (jsToLower a)).getD 0)).sum = 0 := by
    apply List.sum_eq_zero
    intro x hx
    rcases List.mem_map.mp hx with ⟨a, ha, rfl⟩
    rw [hamen a ha]
    rfl
  have hmax : max (max ((LOCATION_MULTIPLIERS (jsToLower p.city)).getD 1.0)
      ((LOCATION_MULTIPLIERS (jsToLower p.state)).getD 1.0)) 0.8 = 1 := by
    rw [hcity, hstate]
    simp only [Option.getD_none]
    have h08 : (0.8 : ℚ) ≤ 1.0 := by norm_num
    rw [max_self, max_eq_left h08]
    norm_num
  refine ⟨?_, ?_, ?_⟩
  · have hproj : (calculateRentPrice p).locationMultiplier
        = toFixed2 (max (max ((LOCATION_MULTIPLIERS (jsToLower p.city)).getD 1.0)
            ((LOCATION_MULTIPLIERS (jsToLower p.state)).getD 1.0)) 0.8) := rfl
    rw [hproj, hmax, toFixed2, jsRound_eq_floor]
    norm_num
  · have hproj : (calculateRentPrice p).amenitiesValue
        = jsRound ((p.amenities.map (fun a => (AMENITY_VALUES (jsToLower a)).getD 0)).sum) := rfl
    rw [hproj, hsum, jsRound_eq_floor]
    norm_num
  · have hproj : (calculateRentPrice p).totalPrice
        = jsRound ((BASE_PRICES (jsToLower (if p.propertyType = "" then "apartment" else p.propertyType))).getD 4000
            * (if p.squareFootage.getD 0 = 0 then 1000 else p.squareFootage.getD 0)
            * max (max ((LOCATION_MULTIPLIERS (jsToLower p.city)).getD 1.0)
                ((LOCATION_MULTIPLIERS (jsToLower p.state)).getD 1.0)) 0.8
            * ((BEDROOM_MULTIPLIERS (p.bedrooms.getD 1)).getD 1.0
                * (BATHROOM_MULTIPLIERS (p.bathrooms.getD 1)).getD 1.0)
            + (p.amenities.map (fun a => (AMENITY_VALUES (jsToLower a)).getD 0)).sum) := rfl
    rw [hproj, hsum, hmax, hpt]
    simp only [Option.getD_none]
    apply jsRound_pos
    have hsqe : (1:ℚ) ≤ (if p.squareFootage.getD 0 = 0 then 1000 else p.squareFootage.getD 0) := by
      rw [hn]
      split_ifs with h
      · norm_num
      · have hn0 : n ≠ 0 := by
          intro h0
          apply h
          rw [h0]
          norm_num
        exact_mod_cast Nat.one_le_iff_ne_zero.mpr hn0
    have hbm := bedroom_mult_ge_one (p.bedrooms.getD 1)
    have hbam := bathroom_mult_ge_one (p.bathrooms.getD 1)
    have h1 : (1:ℚ) ≤ 4000 * (if p.squareFootage.getD 0 = 0 then 1000 else p.squareFootage.getD 0) := by
      nlinarith
    have h2 : (1:ℚ) ≤ (BEDROOM_MULTIPLIERS (p.bedrooms.getD 1)).getD 1.0
        * (BATHROOM_MULTIPLIERS (p.bathrooms.getD 1)).getD 1.0 := by
      nlinarith
    nlinarith [h1, h2]

/-- C10, amended: the returned `locationMultiplier` is always ≥ 0.9 (so the
0.8 floor never binds), and it can only drop below 1.0 when both the city
and the state lowercase to "andhra pradesh" — the single sub-1.0 entry of
the shared lookup table — in which case it is exactly 0.9. -/
theorem calculateRentPrice_locationMultiplier_bounds (p : RentInput) :
    9/10 ≤ (calculateRentPrice p).locationMultiplier
    ∧ ((calculateRentPrice p).locationMultiplier < 1 →
        jsToLower p.city = "andhra pradesh" ∧ jsToLower p.state = "andhra pradesh"
        ∧ (calculateRentPrice p).locationMultiplier = 9/10) := by
  have hproj : (calculateRentPrice p).locationMultiplier
      = toFixed2 (max (max ((LOCATION_MULTIPLIERS (jsToLower p.city)).getD 1.0)
          ((LOCATION_MULTIPLIERS (jsToLower p.state)).getD 1.0)) 0.8) := rfl
  have h910 : toFixed2 (9/10) = 9/10 := by
    rw [toFixed2, jsRound_eq_floor]
    norm_num
  constructor
  · rw [hproj]
    have h1 : (9:ℚ)/10 ≤ max (max ((LOCATION_MULTIPLIERS (jsToLower p.city)).getD 1.0)
        ((LOCATION_MULTIPLIERS (jsToLower p.state)).getD 1.0)) 0.8 :=
      le_trans (loc_lookup_ge _) (le_trans (le_max_left _ _) (le_max_left _ _))
    calc (9:ℚ)/10 = toFixed2 (9/10) := h910.symm
      _ ≤ _ := toFixed2_mono h1
  · intro hlt
    rw [hproj] at hlt
    have hM := le_one_of_toFixed2_lt_one hlt
    have hcs : max ((LOCATION_MULTIPLIERS (jsToLower p.city)).getD 1.0)
        ((LOCATION_MULTIPLIERS (jsToLower p.state)).getD 1.0) < 1 :=
      lt_of_le_of_lt (le_max_left _ _) hM
    have hc1 := lt_of_le_of_lt (le_max_left _ _) hcs
    have hs1 := lt_of_le_of_lt (le_max_right _ _) hcs
    obtain ⟨hcity, hcval⟩ := loc_lookup_lt_one hc1
    obtain ⟨hstate, hsval⟩ := loc_lookup_lt_one hs1
    refine ⟨hcity, hstate, ?_⟩
    rw [hproj, hcval, hsval, max_self]
    rw [max_eq_left (by norm_num)]
    exact h910

/-- The mumbai pricing example input (spec §8). -/
def mumbaiExample : RentInput :=
  { propertyType := "apartment", bedrooms := some 2, bathrooms := some 1
    squareFootage := some 900, city := "mumbai", state := ""
    amenities := ["parking", "gym"] }

/-- An input whose categorical fields miss every table. -/
def unknownExample : RentInput :=
  { propertyType := "castle", bedrooms := some 2, bathrooms := some 1
    squareFootage := some 900, city := "atlantis", state := "narnia"
    amenities := ["moat"] }

/-- The input that reaches the sub-1.0 location multiplier. -/
def andhraExample : RentInput :=
  { propertyType := "apartment", bedrooms := some 1, bathrooms := some 1
    squareFootage := some 1000, city := "andhra pradesh", state := "andhra pradesh"
    amenities := [] }

section WitnessEvaluations

attribute [local semireducible] Rat.ofScientific Rat.mul Rat.inv Rat.add Rat.sub

/-- Witness for C5 at the mumbai example input. -/
theorem calculateRentPrice_priceRange_brackets_witness :
    ∃ T : ℚ, 0 ≤ T
      ∧ (calculateRentPrice mumbaiExample).totalPrice = jsRound T
      ∧ (calculateRentPrice mumbaiExample).priceRange.priceMin = jsRound (T - T * 0.15)
      ∧ (calculateRentPrice mumbaiExample).priceRange.priceMax = jsRound (T + T * 0.15)
      ∧ jsRound (T - T * 0.15) ≤ jsRound T
      ∧ jsRound T ≤ jsRound (T + T * 0.15)
      ∧ 0 ≤ jsRound (T - T * 0.15) :=
  calculateRentPrice_priceRange_brackets mumbaiExample (by decide)

/-- Witness for C7 at an input whose categorical fields are all unknown. -/
theorem calculateRentPrice_unknown_inputs_safe_witness :
    (calculateRentPrice unknownExample).locationMultiplier = 1
    ∧ (calculateRentPrice unknownExample).amenitiesValue = 0
    ∧ 0 < (calculateRentPrice unknownExample).totalPrice :=
  calculateRentPrice_unknown_inputs_safe unknownExample
    (by decide) (by decide) (by decide) (by decide) ⟨900, by decide⟩

/-- Witness for C10 at the andhra pradesh input (discharging the inner
implication as well). -/
theorem calculateRentPrice_locationMultiplier_bounds_witness :
    jsToLower andhraExample.city = "andhra pradesh"
    ∧ jsToLower andhraExample.state = "andhra pradesh"
    ∧ (calculateRentPrice andhraExample).locationMultiplier = 9/10 :=
  (calculateRentPrice_locationMultiplier_bounds andhraExample).2 (by decide)

end WitnessEvaluations

/-! ### Smart score range (C1) -/

theorem add_num (a b : ℚ) : (JSNum.num a).add (JSNum.num b) = JSNum.num (a + b) := rfl

theorem sub_num (a b : ℚ) : (JSNum.num a).sub (JSNum.num b) = JSNum.num (a - b) := by
  simp [JSNum.sub, JSNum.neg, JSNum.add, sub_eq_add_neg]

theorem mul_num (a b : ℚ) : (JSNum.num a).mul (JSNum.num b) = JSNum.num (a * b) := rfl

theorem abs_num (a : ℚ) : (JSNum.num a).abs = JSNum.num |a| := rfl

theorem div_num_of_ne (a : ℚ) {b : ℚ} (hb : b ≠ 0) :
    (JSNum.num a).div (JSNum.num b) = JSNum.num (a / b) := by
  simp [JSNum.div, hb]

theorem isNum_add {x y : JSNum} (hx : ∃ s, x = JSNum.num s) (hy : ∃ s, y = JSNum.num s) :
    ∃ s, x.add y = JSNum.num s := by
  obtain ⟨a, rfl⟩ := hx
  obtain ⟨b, rfl⟩ := hy
  exact ⟨a + b, rfl⟩

theorem isNum_ite (c : Prop) [Decidable c] {x y : JSNum}
    (hx : ∃ s, x = JSNum.num s) (hy : ∃ s, y = JSNum.num s) :
    ∃ s, (if c then x else y) = JSNum.num s := by
  by_cases h : c
  · rw [if_pos h]
    exact hx
  · rw [if_neg h]
    exact hy

/-- `Math.min(100, Math.max(0, x))` lands in [0,100] for every non-`NaN`
`x` — and in particular for every finite `x`. -/
theorem exists_clamp (x : JSNum) (hx : ∃ s, x = JSNum.num s) :
    ∃ q : ℚ, JSNum.jmin (.num 100) (JSNum.jmax (.num 0) x) = JSNum.num q
      ∧ 0 ≤ q ∧ q ≤ 100 := by
  obtain ⟨s, rfl⟩ := hx
  exact ⟨min 100 (max 0 s), rfl, le_min (by norm_num) (le_max_left _ _), min_le_left _ _⟩

set_option maxHeartbeats 1600000 in
/-- C1, amended: `calculateSmartScore` returns a score in [0,100] whenever
any supplied budget preference has both numeric bounds, their sum is not
zero, and the listing has a numeric rent; missing listing fields
(`squareFootage`, `yearBuilt`) contribute neutrally through failed
comparisons and a missing view count is prevented by the schema default 0.
Without the budget proviso the score can be `NaN`
(see the counterexample). -/
theorem calculateSmartScore_in_range (p : SmartProperty) (prefs : SmartPreferences)
    (md : MarketAvg)
    (hb : ∀ b, prefs.budget = some b →
      (∃ mn, b.min = some mn) ∧ (∃ mx, b.max = some mx)
      ∧ b.min.getD 0 + b.max.getD 0 ≠ 0 ∧ (∃ r, p.rent = some r)) :
    ∃ q : ℚ, calculateSmartScore p prefs md = JSNum.num q ∧ 0 ≤ q ∧ q ≤ 100 := by
  rcases hpb : prefs.budget with _ | b
  · simp only [calculateSmartScore, hpb]
    apply exists_clamp
    repeat' first
      | exact ⟨_, rfl⟩
      | apply isNum_add
      | apply isNum_ite
  · obtain ⟨⟨mn, hmn⟩, ⟨mx, hmx⟩, hsum, ⟨r, hr⟩⟩ := hb b hpb
    rw [hmn, hmx] at hsum
    simp only [Option.getD_some] at hsum
    simp only [calculateSmartScore, hpb, hmn, hmx, hr]
    have hmid : ((JSNum.ofOpt (some mn)).add (JSNum.ofOpt (some mx))).div (JSNum.num 2)
        = JSNum.num ((mn + mx) / 2) := by
      show ((JSNum.num mn).add (JSNum.num mx)).div (JSNum.num 2) = _
      rw [add_num, div_num_of_ne _ (by norm_num : (2:ℚ) ≠ 0)]
    rw [hmid]
    have hm : (mn + mx) / 2 ≠ (0:ℚ) := div_ne_zero hsum two_ne_zero
    have hbt : (JSNum.num 50).add ((((JSNum.num 1).sub
          ((((JSNum.ofOpt (some r)).sub (JSNum.num ((mn + mx) / 2))).abs).div
            (JSNum.num ((mn + mx) / 2)))).mul (JSNum.num 30)))
        = JSNum.num (50 + (1 - |r - (mn + mx) / 2| / ((mn + mx) / 2)) * 30) := by
      show (JSNum.num 50).add ((((JSNum.num 1).sub
          ((((JSNum.num r).sub (JSNum.num ((mn + mx) / 2))).abs).div
            (JSNum.num ((mn + mx) / 2)))).mul (JSNum.num 30))) = _
      rw [sub_num, abs_num, div_num_of_ne _ hm, sub_num, mul_num, add_num]
    rw [hbt]
    apply exists_clamp
    repeat' first
      | exact ⟨_, rfl⟩
      | apply isNum_add
      | apply isNum_ite

/-! ### Personalized score budget term (C4) -/

/-- C4, amended: in `calculatePersonalizedScore` (src/listProperties.js) the
budget term is indeed binary — with only a budget preference supplied (max
bound present and non-zero), the whole score is 30 when rent ≤ max and 0
otherwise.  In `calculateSmartScore` the budget term is graded instead (see
the counterexample). -/
theorem calculatePersonalizedScore_budget_binary (p : PersonalProperty) (u : UserPrefs)
    (b : BudgetPref) (m : ℚ) (hbu : u.budget = some b) (hm : b.max = some m) (hm0 : m ≠ 0)
    (hbr : u.bedrooms = none) (ham : u.amenities = none) :
    calculatePersonalizedScore p u = if optLeQ p.rent m then 30 else 0 := by
  simp only [calculatePersonalizedScore, hbu, hm, hbr, ham]
  rw [if_neg hm0]
  split_ifs with h
  · rw [min_eq_left (by norm_num : (0:ℚ) + 30 ≤ 100)]
    norm_num
  · rw [min_eq_left (by norm_num : (0:ℚ) ≤ 100)]

/-! ### Ranking tie-break (C8) -/

theorem pairwise_rankedBefore_orderedInsert (x : RankedListing) :
    ∀ m : List RankedListing, m.Pairwise rankedBefore →
      (∀ y ∈ m, y.createdAt ≤ x.createdAt) →
      (m.orderedInsert scoreOrder x).Pairwise rankedBefore := by
  intro m
  induction m with
  | nil =>
    intro _ _
    simp [List.orderedInsert]
  | cons b t ih =>
    intro hm hx
    rcases List.pairwise_cons.mp hm with ⟨hbt, ht⟩
    rw [List.orderedInsert]
    by_cases hxb : scoreOrder x b
    · rw [if_pos hxb]
      refine List.pairwise_cons.mpr ⟨?_, hm⟩
      intro z hz
      rcases List.mem_cons.mp hz with rfl | hzt
      · rcases lt_or_eq_of_le hxb with hlt | heq
        · exact Or.inl hlt
        · exact Or.inr ⟨heq.symm, hx z (List.mem_cons_self _ _)⟩
      · rcases hbt z hzt with hlt | ⟨heq, _⟩
        · exact Or.inl (lt_of_lt_of_le hlt hxb)
        · rcases lt_or_eq_of_le hxb with hlt2 | heq2
          · exact Or.inl (heq ▸ hlt2)
          · exact Or.inr ⟨by rw [← heq2, heq], hx z (List.mem_cons_of_mem _ hzt)⟩
    · rw [if_neg hxb]
      refine List.pairwise_cons.mpr
        ⟨?_, ih ht (fun y hy => hx y (List.mem_cons_of_mem _ hy))⟩
      intro z hz
      rcases (List.mem_orderedInsert scoreOrder).mp hz with rfl | hzt
      · exact Or.inl (lt_of_not_le hxb)
      · exact hbt z hzt

theorem pairwise_rankedBefore_insertionSort :
    ∀ l : List RankedListing, l.Pairwise (fun a b => b.createdAt ≤ a.createdAt) →
      (l.insertionSort scoreOrder).Pairwise rankedBefore := by
  intro l
  induction l with
  | nil =>
    intro _
    simp [List.insertionSort]
  | cons x t ih =>
    intro h
    rcases List.pairwise_cons.mp h with ⟨hxt, ht⟩
    rw [List.insertionSort]
    exact pairwise_rankedBefore_orderedInsert x _ (ih ht)
      (fun y hy => hxt y ((List.perm_insertionSort scoreOrder t).subset hy))

/-- C8: candidates arrive sorted `createdAt` descending; the stable score
sort then yields a list in which any earlier entry either has a strictly
higher smart score or ties on score and was created no earlier — i.e. equal
scores appear most-recently-created first, and `slice(0, 20)` preserves
this. -/
theorem smartRecommendationsRanking_tiebreak (l : List RankedListing)
    (h : l.Pairwise (fun a b => b.createdAt ≤ a.createdAt)) :
    (smartRecommendationsRanking l).Pairwise rankedBefore :=
  (pairwise_rankedBefore_insertionSort l h).sublist (List.take_sublist _ _)

/-! ### Estimate flags (C9) -/

/-- C9, amended: only `getMarketData` flags its synthetic fallback — with a
non-empty city and a non-empty listing sample the aggregate result carries
no `isEstimate` flag, while the global fallback carries `isEstimate: true`;
but the entirely mock `getPriceTrends` series and the randomized
`getMarketData` helper of src/listProperties.js return synthetic data with
no `isEstimate` flag at all. -/
theorem marketData_isEstimate_flags (c st : String) (hc : c ≠ "")
    (props : List marketData.StoredListing) (hne : props.length ≠ 0)
    (months : ℕ) (rand : ℕ → ℚ) (rent sqft : Option ℚ) (r1 r2 r3 : ℚ) :
    (marketData.getMarketData (some ⟨some c, some st⟩) props).isEstimate = false
    ∧ (marketData.getMarketData none props).isEstimate = true
    ∧ (∀ pt ∈ marketData.getPriceTrends months rand, pt.isEstimate = false)
    ∧ (listProperties.getMarketData rent sqft r1 r2 r3).isEstimate = false := by
  refine ⟨?_, rfl, ?_, rfl⟩
  · simp only [marketData.getMarketData]
    rw [if_neg hc, if_neg hne]
  · intro pt hpt
    unfold marketData.getPriceTrends at hpt
    rcases List.mem_map.mp hpt with ⟨k, _, rfl⟩
    rfl

section MoreWitnesses

attribute [local semireducible] Rat.ofScientific Rat.mul Rat.inv Rat.add Rat.sub

/-- Witness for C1 at a fully-bounded budget preference. -/
theorem calculateSmartScore_in_range_witness :
    ∃ q : ℚ, calculateSmartScore
      { rent := some 1500, bedrooms := 1, squareFootage := none, yearBuilt := none
        amenities := [], views := 0 }
      { budget := some { min := some 1000, max := some 2000 }, amenities := [] }
      ⟨fun k => if k = "1bed" then some 1000 else none⟩ = JSNum.num q ∧ 0 ≤ q ∧ q ≤ 100 :=
  calculateSmartScore_in_range _ _ _
    (fun _ hbe =>
      (Option.some.inj hbe) ▸ ⟨⟨1000, rfl⟩, ⟨2000, rfl⟩, by decide, ⟨1500, rfl⟩⟩)

/-- Witness for C4 at a budget-only preference. -/
theorem calculatePersonalizedScore_budget_binary_witness :
    calculatePersonalizedScore
      { rent := some 1500, bedrooms := some 2, amenities := some ["gym"] }
      { budget := some { min := none, max := some 2000 }, bedrooms := none, amenities := none }
      = if optLeQ (some 1500) 2000 then 30 else 0 :=
  calculatePersonalizedScore_budget_binary _ _ _ _ rfl rfl (by decide) rfl rfl

/-- Witness for C8 at a three-element candidate list with a score tie. -/
theorem smartRecommendationsRanking_tiebreak_witness :
    (smartRecommendationsRanking
      [{ smartScore := 90, createdAt := 10 }, { smartScore := 80, createdAt := 9 },
       { smartScore := 80, createdAt := 5 }]).Pairwise rankedBefore :=
  smartRecommendationsRanking_tiebreak _ (by decide)

/-- Witness for C9 at a one-listing aggregate sample. -/
theorem marketData_isEstimate_flags_witness :
    (marketData.getMarketData (some ⟨some "pune", some "maharashtra"⟩)
        [{ rent := some 1000 }]).isEstimate = false :=
  (marketData_isEstimate_flags "pune" "maharashtra" (by decide) [{ rent := some 1000 }]
    (by decide) 1 (fun _ => 0) none none 0 0 0).1

end MoreWitnesses

end Engine

end StaySphere
